import Mathlib

/-!
Verification of the traffic analytics system: per-camera aggregation and
intensity classification, the history store (trend cap, heatmap
normalisation, slot fallback), detector fallback on source failure, the
stream broadcaster contract, and the dashboard client logic found in
static/js/insights.js and static/js/script.js. The backend module
(backend/analytics.py) is not among the sources, so its components are
modelled from the specification; the client-side functions are embedded
from the JavaScript sources directly.
-/

/-- Vehicle types recognised by the detector (car, bike, bus, truck). -/
inductive VehicleType where
  | car
  | bike
  | bus
  | truck
  deriving DecidableEq

/-- Congestion intensity bands. -/
inductive Intensity where
  | low
  | moderate
  | high
  deriving DecidableEq

/-- Rank of an intensity band in the order low < moderate < high. -/
def Intensity.rank : Intensity → Nat
  | .low => 0
  | .moderate => 1
  | .high => 2

/-- Modelled from the spec: intensity classification is a pure function of the
total against fixed thresholds, with inclusive lower bounds
(low < T1 ≤ moderate < T2 ≤ high); ties resolve to the higher band. The
backend module backend/analytics.py is absent from the sources. -/
def classify (T1 T2 total : Nat) : Intensity :=
  if T2 ≤ total then .high
  else if T1 ≤ total then .moderate
  else .low

/-- Per-type vehicle counts of one camera. -/
structure TypeCounts where
  car : Nat
  bike : Nat
  bus : Nat
  truck : Nat
  deriving DecidableEq

/-- Sum of the four per-type counts. -/
def TypeCounts.sum (c : TypeCounts) : Nat :=
  c.car + c.bike + c.bus + c.truck

/-- Modelled from the spec: one tracked vehicle of a camera's TrackState
(track id, vehicle type, last-seen cycle). -/
structure TrackEntry where
  trackId : Nat
  vtype : VehicleType
  lastSeen : Nat
  deriving DecidableEq

/-- Modelled from the spec: expire tracks unseen for more than maxAge cycles. -/
def expireTracks (maxAge cycle : Nat) (ts : List TrackEntry) : List TrackEntry :=
  ts.filter (fun e => cycle ≤ e.lastSeen + maxAge)

/-- Vehicle types of the currently active (non-expired) tracks. -/
def activeTypes (maxAge cycle : Nat) (ts : List TrackEntry) : List VehicleType :=
  (expireTracks maxAge cycle ts).map TrackEntry.vtype

/-- Modelled from the spec: per-type counts are recomputed as the count of
currently-active tracks of each type. -/
def recomputeCounts (active : List VehicleType) : TypeCounts :=
  { car := active.count .car
    bike := active.count .bike
    bus := active.count .bus
    truck := active.count .truck }

/-- Per-camera snapshot: camera id, per-type counts, total, intensity. -/
structure LocationSnapshot where
  camId : String
  counts : TypeCounts
  total : Nat
  intensity : Intensity
  deriving DecidableEq

/-- Modelled from the spec: the LocationAggregator recomputes, per camera and
per cycle, the per-type counts from the active tracks, the total, and the
intensity; the snapshot is replaced wholesale. -/
def mkLocationSnapshot (T1 T2 maxAge cycle : Nat) (camId : String)
    (tracks : List TrackEntry) : LocationSnapshot :=
  let c := recomputeCounts (activeTypes maxAge cycle tracks)
  { camId := camId, counts := c, total := c.sum, intensity := classify T1 T2 c.sum }

theorem count_partition (l : List VehicleType) :
    l.count .car + l.count .bike + l.count .bus + l.count .truck = l.length := by
  induction l with
  | nil => rfl
  | cons h t ih => cases h <;> simp [List.count_cons] <;> omega

/-- C1: every LocationSnapshot produced by the aggregator has total equal to
the sum of its per-type counts over car, bike, bus and truck (equivalently,
to the number of active tracks). -/
theorem snapshot_total_eq_sum (T1 T2 maxAge cycle : Nat) (camId : String)
    (tracks : List TrackEntry) :
    (mkLocationSnapshot T1 T2 maxAge cycle camId tracks).total =
      (mkLocationSnapshot T1 T2 maxAge cycle camId tracks).counts.car +
      (mkLocationSnapshot T1 T2 maxAge cycle camId tracks).counts.bike +
      (mkLocationSnapshot T1 T2 maxAge cycle camId tracks).counts.bus +
      (mkLocationSnapshot T1 T2 maxAge cycle camId tracks).counts.truck ∧
    (mkLocationSnapshot T1 T2 maxAge cycle camId tracks).total =
      (activeTypes maxAge cycle tracks).length := by
  constructor
  · rfl
  · simpa [mkLocationSnapshot, recomputeCounts, TypeCounts.sum] using
      count_partition (activeTypes maxAge cycle tracks)

/-- C2: classify is a pure deterministic function of the total, monotonically
non-decreasing in the order low < moderate < high, and each threshold is an
inclusive lower bound of the higher band. -/
theorem classify_deterministic_monotone (T1 T2 : Nat) (hT : T1 < T2) :
    (∀ a b : Nat, a = b → classify T1 T2 a = classify T1 T2 b) ∧
    (∀ a b : Nat, a ≤ b → (classify T1 T2 a).rank ≤ (classify T1 T2 b).rank) ∧
    classify T1 T2 T1 = Intensity.moderate ∧
    classify T1 T2 T2 = Intensity.high := by
  refine ⟨fun a b h => by rw [h], fun a b hab => ?_, ?_, ?_⟩
  · unfold classify
    split_ifs <;> simp [Intensity.rank] <;> omega
  · unfold classify
    rw [if_neg (by omega), if_pos (by omega)]
  · unfold classify
    rw [if_pos le_rfl]

theorem classify_deterministic_monotone_witness :
    (2 : Nat) < 5 ∧ classify 2 5 2 = Intensity.moderate :=
  ⟨by decide, (classify_deterministic_monotone 2 5 (by decide)).2.2.1⟩

/-- One point of a trend sequence: time label plus aggregate count. -/
structure TrendPoint where
  time : String
  count : Nat
  deriving DecidableEq

/-- Modelled from the spec: the per-slot trend sequence is capped at a fixed
length; appending past the cap evicts the oldest point first (FIFO), keeping
the most recent cap points. -/
def trendAppend (cap : Nat) (l : List TrendPoint) (p : TrendPoint) : List TrendPoint :=
  let l2 := l ++ [p]
  l2.drop (l2.length - cap)

/-- Append a whole sequence of points in order. -/
def trendAppendAll (cap : Nat) (l : List TrendPoint) (ps : List TrendPoint) : List TrendPoint :=
  ps.foldl (trendAppend cap) l

theorem trendAppendAll_eq (cap : Nat) (l : List TrendPoint) (hl : l.length ≤ cap)
    (ps : List TrendPoint) :
    trendAppendAll cap l ps = (l ++ ps).drop ((l ++ ps).length - cap) := by
  induction ps generalizing l with
  | nil =>
    simp [trendAppendAll, Nat.sub_eq_zero_of_le hl]
  | cons p rest ih =>
    have h1 : (trendAppend cap l p).length ≤ cap := by
      simp [trendAppend]
      omega
    have step : trendAppendAll cap l (p :: rest) =
        trendAppendAll cap (trendAppend cap l p) rest := rfl
    rw [step, ih _ h1]
    simp only [trendAppend]
    rw [← List.drop_append_of_le_length (by simp)]
    rw [List.drop_drop]
    have hlist : (l ++ [p]) ++ rest = l ++ p :: rest := by simp
    rw [hlist]
    congr 1
    simp only [List.length_drop, List.length_append, List.length_cons, List.length_nil]
    omega

/-- C3: for every slot, after any sequence of appends from an empty trend the
sequence length never exceeds the cap, insertion order is preserved (the
result is the suffix of the inputs made of the most recent points), and after
cap + 1 insertions the sequence is exactly the last cap points (the single
oldest point was evicted, FIFO). -/
theorem trend_cap_fifo (cap : Nat) (ps : List TrendPoint) :
    (trendAppendAll cap [] ps).length ≤ cap ∧
    trendAppendAll cap [] ps = ps.drop (ps.length - cap) ∧
    (∀ qs : List TrendPoint, qs.length = cap + 1 →
      trendAppendAll cap [] qs = qs.drop 1) := by
  have h := trendAppendAll_eq cap [] (by simp) ps
  simp at h
  refine ⟨?_, h, ?_⟩
  · rw [h]
    simp
    omega
  · intro qs hqs
    have h2 := trendAppendAll_eq cap [] (by simp) qs
    simp at h2
    rw [h2, hqs]
    simp

theorem trend_cap_fifo_witness :
    (([⟨"a", 1⟩, ⟨"b", 2⟩, ⟨"c", 3⟩] : List TrendPoint)).length = 2 + 1 ∧
    trendAppendAll 2 [] [⟨"a", 1⟩, ⟨"b", 2⟩, ⟨"c", 3⟩] =
      ([⟨"b", 2⟩, ⟨"c", 3⟩] : List TrendPoint) :=
  ⟨by decide, by
    have h := (trend_cap_fifo 2 [⟨"a", 1⟩, ⟨"b", 2⟩, ⟨"c", 3⟩]).2.2
      [⟨"a", 1⟩, ⟨"b", 2⟩, ⟨"c", 3⟩] (by decide)
    simpa using h⟩

/-- Camera configuration: id, name, coordinates, source reference. -/
structure CameraConfig where
  id : String
  name : String
  lat : ℚ
  lng : ℚ
  source : String
  deriving DecidableEq

/-- A heatmap point: camera coordinates plus a normalised intensity. -/
structure HeatPoint where
  lat : ℚ
  lng : ℚ
  intensity : ℚ
  deriving DecidableEq

/-- Modelled from the spec: heatmap intensity is the camera's current total
divided by a fixed scale constant, clamped into [0, 1]; it is a function of
the total only, not of the live intensity label. -/
def heatIntensity (scale total : Nat) : ℚ :=
  min ((total : ℚ) / (scale : ℚ)) 1

/-- Build the heatmap point of one camera from its config and snapshot. -/
def mkHeatPoint (scale : Nat) (cfg : CameraConfig) (snap : LocationSnapshot) : HeatPoint :=
  { lat := cfg.lat, lng := cfg.lng, intensity := heatIntensity scale snap.total }

/-- Modelled from the spec: the HistoryStore refreshes the heatmap of the
current slot from all cameras' current snapshots. -/
def refreshHeatmap (scale : Nat) (cams : List (CameraConfig × LocationSnapshot)) :
    List HeatPoint :=
  cams.map (fun cs => mkHeatPoint scale cs.1 cs.2)

/-- C4: every heatmap intensity served by the history query lies in [0, 1],
and it is computed from the camera total and the scale alone — two snapshots
with equal totals give equal heatmap intensities whatever their live
intensity labels. -/
theorem heatmap_intensity_in_unit_interval (scale : Nat)
    (cams : List (CameraConfig × LocationSnapshot)) (p : HeatPoint)
    (hp : p ∈ refreshHeatmap scale cams) :
    (0 ≤ p.intensity ∧ p.intensity ≤ 1) ∧
    (∀ cfg₁ cfg₂ : CameraConfig, ∀ s₁ s₂ : LocationSnapshot, s₁.total = s₂.total →
      (mkHeatPoint scale cfg₁ s₁).intensity = (mkHeatPoint scale cfg₂ s₂).intensity) := by
  constructor
  · simp [refreshHeatmap] at hp
    obtain ⟨c, s, _, rfl⟩ := hp
    constructor
    · exact le_min (div_nonneg (Nat.cast_nonneg _) (Nat.cast_nonneg _)) zero_le_one
    · exact min_le_right _ _
  · intro cfg₁ cfg₂ s₁ s₂ hts
    simp [mkHeatPoint, hts]

def cfgW : CameraConfig :=
  { id := "CAM_001", name := "Rajagiri Junction", lat := 10, lng := 76, source := "traffic_cam1.mp4" }

def snapW : LocationSnapshot :=
  { camId := "CAM_001", counts := ⟨2, 1, 0, 0⟩, total := 3, intensity := .low }

theorem heatmap_intensity_in_unit_interval_witness :
    mkHeatPoint 50 cfgW snapW ∈ refreshHeatmap 50 [(cfgW, snapW)] ∧
    (0 ≤ (mkHeatPoint 50 cfgW snapW).intensity ∧ (mkHeatPoint 50 cfgW snapW).intensity ≤ 1) :=
  ⟨by simp [refreshHeatmap],
   (heatmap_intensity_in_unit_interval 50 [(cfgW, snapW)] _ (by simp [refreshHeatmap])).1⟩

/-- Modelled from the spec: the closed slot enumeration (Night/Day/Peak). -/
inductive Slot where
  | night
  | day
  | peak
  deriving DecidableEq

/-- Modelled from the spec: the default slot used when the query names no
known slot. -/
def defaultSlot : Slot := .day

/-- Modelled from the spec: resolve the slot query parameter; an unknown or
absent slot name falls back to the default slot rather than failing. -/
def resolveSlot (q : Option String) : Slot :=
  match q with
  | none => defaultSlot
  | some s =>
    if s = "night" then .night
    else if s = "day" then .day
    else if s = "peak" then .peak
    else defaultSlot

/-- Data served for one slot: label, trend sequence, heatmap points. -/
structure SlotData where
  label : String
  trend : List TrendPoint
  heatmap : List HeatPoint
  deriving DecidableEq

/-- Modelled from the spec: the history query looks up the stored per-slot
data under the resolved slot. -/
def historyQuery (st : Slot → SlotData) (q : Option String) : SlotData :=
  st (resolveSlot q)

/-- C5: querying history with any slot name outside the closed enumeration
(or with the slot absent) does not fail and returns exactly the result of
querying the default slot. -/
theorem history_unknown_slot_default (st : Slot → SlotData) (q : Option String)
    (hq : q ≠ some "night" ∧ q ≠ some "day" ∧ q ≠ some "peak") :
    historyQuery st q = historyQuery st (some "day") ∧
    historyQuery st q = st defaultSlot := by
  obtain ⟨h1, h2, h3⟩ := hq
  have hd : historyQuery st (some "day") = st defaultSlot := by
    simp [historyQuery, resolveSlot, defaultSlot]
  cases q with
  | none => exact ⟨hd.symm ▸ rfl, rfl⟩
  | some s =>
    have hs1 : s ≠ "night" := fun h => h1 (by rw [h])
    have hs2 : s ≠ "day" := fun h => h2 (by rw [h])
    have hs3 : s ≠ "peak" := fun h => h3 (by rw [h])
    have : historyQuery st (some s) = st defaultSlot := by
      simp [historyQuery, resolveSlot, hs1, hs2, hs3]
    exact ⟨by rw [this, hd], this⟩

/-- Fixed slot data used to instantiate the history theorems. -/
def slotDataW : SlotData :=
  { label := "Daytime", trend := [], heatmap := [] }

theorem history_unknown_slot_default_witness :
    ((some "banana" : Option String) ≠ some "night" ∧
      (some "banana" : Option String) ≠ some "day" ∧
      (some "banana" : Option String) ≠ some "peak") ∧
    historyQuery (fun _ => slotDataW) (some "banana") =
      historyQuery (fun _ => slotDataW) (some "day") :=
  ⟨by decide,
   (history_unknown_slot_default (fun _ => slotDataW) (some "banana") (by decide)).1⟩

/-- Which detector variant a camera worker is running. -/
inductive DetectorKind where
  | real
  | mock
  deriving DecidableEq

/-- Modelled from the spec: a camera worker owns one source and one detector
variant. -/
structure Worker where
  cfg : CameraConfig
  detector : DetectorKind
  deriving DecidableEq

/-- Modelled from the spec: capability probing at startup — the worker uses
the Real detector when the camera source opens, the Mock detector when the
source is unavailable; the service still starts either way. -/
def spawnWorker (avail : String → Bool) (cfg : CameraConfig) : Worker :=
  { cfg := cfg, detector := if avail cfg.source then .real else .mock }

/-- Modelled from the spec: service start spawns one worker per configured
camera, independently of whether each source opened. -/
def startService (avail : String → Bool) (cfgs : List CameraConfig) : List Worker :=
  cfgs.map (spawnWorker avail)

/-- Modelled from the spec: a mid-run source failure switches the worker to
the Mock detector; once on Mock a worker never switches back for the rest of
the run. -/
def workerStep (w : Worker) (sourceFailed : Bool) : Worker :=
  if sourceFailed then { w with detector := .mock } else w

/-- Run a worker through a sequence of cycle events (true = source failure). -/
def runWorker (w : Worker) (events : List Bool) : Worker :=
  events.foldl workerStep w

/-- Camera ids of the per-camera entries served by currentSnapshot. -/
def currentLocationIds (ws : List Worker) : List String :=
  ws.map (fun w => w.cfg.id)

/-- C6: when a camera source is unavailable at start its worker runs the Mock
detector, cameras whose sources open are unaffected, the failed camera's
entry still appears in currentSnapshot's locations (one entry per configured
camera, in order), and once a worker is on Mock it stays on Mock for any
further events of the run. -/
theorem camera_failure_mock_fallback (avail : String → Bool)
    (cfgs : List CameraConfig) (events : List Bool) (w : Worker)
    (hw : w.detector = .mock) :
    (startService avail cfgs).map Worker.cfg = cfgs ∧
    currentLocationIds (startService avail cfgs) = cfgs.map CameraConfig.id ∧
    (∀ c ∈ cfgs, avail c.source = false → (spawnWorker avail c).detector = .mock) ∧
    (∀ c ∈ cfgs, avail c.source = true → (spawnWorker avail c).detector = .real) ∧
    (runWorker w events).detector = .mock := by
  refine ⟨?_, ?_, ?_, ?_, ?_⟩
  · have h : ∀ cs : List CameraConfig, (startService avail cs).map Worker.cfg = cs := by
      intro cs
      induction cs with
      | nil => rfl
      | cons c rest ihc => simpa [startService, spawnWorker] using ihc
    exact h cfgs
  · simp [currentLocationIds, startService, spawnWorker]
  · intro c _ hc
    simp [spawnWorker, hc]
  · intro c _ hc
    simp [spawnWorker, hc]
  · induction events generalizing w with
    | nil => exact hw
    | cons e rest ih =>
      have : (workerStep w e).detector = .mock := by
        cases e <;> simp [workerStep, hw]
      exact ih (workerStep w e) this

theorem camera_failure_mock_fallback_witness :
    (Worker.mk cfgW .mock).detector = .mock ∧
    currentLocationIds (startService (fun _ => false) [cfgW]) = ["CAM_001"] :=
  ⟨rfl,
   by
    have h := (camera_failure_mock_fallback (fun _ => false) [cfgW] [false, true]
      (Worker.mk cfgW .mock) rfl).2.1
    simpa [cfgW] using h⟩

/-- String label of an intensity band, as serialised by the API. -/
def intensityLabel : Intensity → String
  | .low => "low"
  | .moderate => "moderate"
  | .high => "high"

/-- Componentwise addition of per-type counts. -/
def TypeCounts.add (a b : TypeCounts) : TypeCounts :=
  { car := a.car + b.car
    bike := a.bike + b.bike
    bus := a.bus + b.bus
    truck := a.truck + b.truck }

/-- One element of the locations array of GET /api/data. -/
structure ApiLocation where
  id : String
  name : String
  lat : ℚ
  lng : ℚ
  intensity : String
  total : Nat
  deriving DecidableEq

/-- The JSON object served by GET /api/data. -/
structure ApiData where
  total_vehicles : Nat
  distribution : TypeCounts
  locations : List ApiLocation
  deriving DecidableEq

/-- Modelled from the spec: GET /api/data marshals currentSnapshot — the
city-wide total, the recomputed per-type distribution summed across all
cameras, and one location entry per camera with id, name, coordinates,
intensity label and total. -/
def buildApiData (cams : List (CameraConfig × LocationSnapshot)) : ApiData :=
  { total_vehicles := (cams.map (fun cs => cs.2.total)).sum
    distribution := cams.foldl (fun acc cs => acc.add cs.2.counts) ⟨0, 0, 0, 0⟩
    locations := cams.map (fun cs =>
      { id := cs.1.id
        name := cs.1.name
        lat := cs.1.lat
        lng := cs.1.lng
        intensity := intensityLabel cs.2.intensity
        total := cs.2.total }) }

/-- C7: every GET /api/data response carries an integer total_vehicles equal
to the sum of the integer location totals, integer per-type distribution
fields, and a locations array each of whose elements carries id, name, lat,
lng, an intensity equal to low, moderate or high, and an integer total. -/
theorem api_data_shape (cams : List (CameraConfig × LocationSnapshot)) :
    (buildApiData cams).total_vehicles =
      ((buildApiData cams).locations.map ApiLocation.total).sum ∧
    ∀ loc ∈ (buildApiData cams).locations,
      loc.intensity = "low" ∨ loc.intensity = "moderate" ∨ loc.intensity = "high" := by
  constructor
  · have h : ∀ cs : List (CameraConfig × LocationSnapshot),
        (buildApiData cs).locations.map ApiLocation.total = cs.map (fun c => c.2.total) := by
      intro cs
      induction cs with
      | nil => rfl
      | cons c rest _ => simp [buildApiData]
    rw [h]
    rfl
  · intro loc hloc
    simp [buildApiData] at hloc
    obtain ⟨c, s, _, rfl⟩ := hloc
    cases s.intensity <;> simp [intensityLabel]

theorem api_data_shape_witness :
    (buildApiData [(cfgW, snapW)]).locations =
      [⟨"CAM_001", "Rajagiri Junction", 10, 76, "low", 3⟩] ∧
    ∀ loc ∈ (buildApiData [(cfgW, snapW)]).locations,
      loc.intensity = "low" ∨ loc.intensity = "moderate" ∨ loc.intensity = "high" :=
  ⟨by simp [buildApiData, cfgW, snapW, intensityLabel],
   (api_data_shape [(cfgW, snapW)]).2⟩

/-- Modelled from the spec: the StreamBroadcaster hands a newly attached
viewer the most recently produced frame immediately, then every frame
produced after attachment; frames are numbered from 1 in production order
and no backlog is replayed. A viewer attaching after k frames, observed once
t ≥ k frames exist, has received exactly these frame numbers. -/
def viewerFrames (k t : Nat) : List Nat :=
  (if k = 0 then [] else [k]) ++ List.range' (k + 1) (t - k)

/-- C8: a viewer attaching after k ≥ 1 frames have been produced never
receives any of frames 1 .. k-1; it receives the most recent frame k
immediately (head of its stream) and then every frame k+1 .. t produced
after it attached. -/
theorem viewer_no_backlog (k t : Nat) (hk : 1 ≤ k) (hkt : k ≤ t) :
    (∀ f ∈ viewerFrames k t, k ≤ f) ∧
    (viewerFrames k t).head? = some k ∧
    (∀ f : Nat, k < f → f ≤ t → f ∈ viewerFrames k t) := by
  have hk0 : ¬ k = 0 := by omega
  refine ⟨?_, ?_, ?_⟩
  · intro f hf
    simp [viewerFrames, hk0, List.mem_range'] at hf
    rcases hf with rfl | ⟨i, hi, rfl⟩ <;> omega
  · simp [viewerFrames, hk0]
  · intro f hf1 hf2
    simp [viewerFrames, hk0, List.mem_range']
    right
    exact ⟨f - (k + 1), by omega, by omega⟩

theorem viewer_no_backlog_witness :
    ((1 : Nat) ≤ 10 ∧ (10 : Nat) ≤ 12) ∧ (viewerFrames 10 12).head? = some 10 :=
  ⟨by decide, (viewer_no_backlog 10 12 (by decide) (by decide)).2.1⟩

/-- Whether pat occurs at the start of s (character lists). -/
def charsStartWith : List Char → List Char → Bool
  | [], _ => true
  | _ :: _, [] => false
  | p :: ps, c :: cs => p == c && charsStartWith ps cs

/-- Whether pat occurs anywhere inside s (character lists). -/
def charsContain : List Char → List Char → Bool
  | pat, [] => charsStartWith pat []
  | pat, c :: cs => charsStartWith pat (c :: cs) || charsContain pat cs

/-- The substring test used by insights.js, i.e. JavaScript
String.prototype.includes. -/
def strIncludes (s pat : String) : Bool :=
  charsContain pat.data s.data

/-- Trend-chart border colour chosen by updateDashboard in
static/js/insights.js: a period_label containing Night styles the chart
blue, otherwise one containing Peak styles it red, otherwise the default
teal is kept. -/
def chartBorderColor (periodLabel : String) : String :=
  if strIncludes periodLabel "Night" then "#36a2eb"
  else if strIncludes periodLabel "Peak" then "#ff6384"
  else "#4bc0c0"

/-- C9: the insights client styles the trend chart purely by substring
containment on the period_label of the /api/history response — blue whenever
the label contains Night, else red whenever it contains Peak, else the
default teal — independently of which slot the client requested. -/
theorem insights_chart_color_by_label (periodLabel : String) :
    (strIncludes periodLabel "Night" = true →
      chartBorderColor periodLabel = "#36a2eb") ∧
    (strIncludes periodLabel "Night" = false → strIncludes periodLabel "Peak" = true →
      chartBorderColor periodLabel = "#ff6384") ∧
    (strIncludes periodLabel "Night" = false → strIncludes periodLabel "Peak" = false →
      chartBorderColor periodLabel = "#4bc0c0") := by
  refine ⟨fun h1 => ?_, fun h1 h2 => ?_, fun h1 h2 => ?_⟩ <;>
    simp [chartBorderColor, h1]
  · simp [h2]
  · simp [h2]

theorem insights_chart_color_by_label_witness :
    strIncludes "Night Shift" "Night" = true ∧
    chartBorderColor "Night Shift" = "#36a2eb" :=
  ⟨by decide, (insights_chart_color_by_label "Night Shift").1 (by decide)⟩

/-- Marker colour chosen by updateDashboard in static/js/script.js: the
colour starts green (low), is overwritten with yellow when the intensity is
exactly the string moderate, then with red when it is exactly high. -/
def markerColor (intensity : String) : String :=
  let c0 := "#44ff44"
  let c1 := if intensity = "moderate" then "#ffcc00" else c0
  let c2 := if intensity = "high" then "#ff4444" else c1
  c2

/-- A location record as consumed by the live dashboard client. -/
structure ClientLocation where
  name : String
  intensity : String
  deriving DecidableEq

/-- Congestion alerts built by updateDashboard in static/js/script.js: one
alert entry is appended per location whose intensity is exactly high. -/
def congestionAlerts (locs : List ClientLocation) : List String :=
  locs.foldl (fun acc loc => if loc.intensity = "high" then acc ++ [loc.name] else acc) []

theorem congestionAlerts_go (locs : List ClientLocation) (acc : List String) :
    locs.foldl (fun acc loc => if loc.intensity = "high" then acc ++ [loc.name] else acc) acc =
      acc ++ (locs.filter (fun l => l.intensity == "high")).map ClientLocation.name := by
  induction locs generalizing acc with
  | nil => simp
  | cons l rest ih =>
    by_cases h : l.intensity = "high" <;>
      simp [List.filter_cons, h, ih]

/-- C10: the live dashboard client renders every intensity other than the
exact strings moderate and high as the low (green) marker, and it adds a
congestion alert for a location exactly when that location's intensity
equals high — unknown intensity strings degrade silently to low. -/
theorem script_unknown_intensity_low (i : String) (locs : List ClientLocation)
    (h1 : i ≠ "moderate") (h2 : i ≠ "high") :
    markerColor i = "#44ff44" ∧
    congestionAlerts locs =
      (locs.filter (fun l => l.intensity == "high")).map ClientLocation.name := by
  constructor
  · simp [markerColor, h1, h2]
  · simpa [congestionAlerts] using congestionAlerts_go locs []

theorem script_unknown_intensity_low_witness :
    ("weird" ≠ "moderate" ∧ "weird" ≠ "high") ∧
    markerColor "weird" = "#44ff44" ∧
    congestionAlerts [⟨"Junction A", "high"⟩, ⟨"Junction B", "low"⟩] =
      (([⟨"Junction A", "high"⟩, ⟨"Junction B", "low"⟩] :
        List ClientLocation).filter (fun l => l.intensity == "high")).map
        ClientLocation.name :=
  ⟨by decide,
   script_unknown_intensity_low "weird" [⟨"Junction A", "high"⟩, ⟨"Junction B", "low"⟩]
     (by decide) (by decide)⟩
